import Mathlib

/-!
The window state machine of golGL, `src/main.cpp`.

Shallow embedding of `main.cpp` (class `GameWindow` and `main`).  The header
`world.hpp` is not part of the sources, so the class `world` is represented by
its fields that `main.cpp` reads or writes, and its member functions are taken
as parameters (`WorldOps`).  SDL handles, the frame counter and the FPS text are
presentation state that no control decision reads; they are left out.
-/

set_option linter.dupNamespace false

namespace GolGL

/-! Data model -/

/-- An `SDL_Color{r, g, b, a}`. -/
structure SDL_Color where
  r : Nat
  g : Nat
  b : Nat
  a : Nat
deriving DecidableEq, Repr

namespace Color

def RED : SDL_Color := ⟨255, 0, 0, 0⟩

def GREEN : SDL_Color := ⟨0, 255, 0, 0⟩

def BLUE : SDL_Color := ⟨0, 0, 255, 0⟩

def BLACK : SDL_Color := ⟨0, 0, 0, 0⟩

def WHITE : SDL_Color := ⟨255, 255, 255, 0⟩

def TRANSPARENT : SDL_Color := ⟨0, 0, 0, 255⟩

end Color

/-- A `cell`: `main.cpp` only uses its member `alive`. -/
structure cell where
  alive : Bool
deriving DecidableEq, Repr

/-- The fields of `world` used by `main.cpp`.  `cells` and `last_gen` are
indexed `[x][y]`: a list of columns.  `width` and `height` are `int`
(they are the bounds of `boost::irange(0, _)`). -/
structure world where
  width : Int
  height : Int
  cells : List (List cell)
  last_gen : List (List cell)
  generation : Int
  ratio_w : Int
  ratio_h : Int
  last_dump_str : String
deriving DecidableEq, Repr

/-- The member functions of `world` called from `main.cpp`; their bodies live
in `world.hpp`, so they are parameters of the embedding. -/
structure WorldOps where
  /-- the constructor `world(width, height)` -/
  create : Int → Int → world
  /-- member `seed_life(bool)`; the default argument is `true` (random seeding) -/
  seed_life : Bool → world → world
  next_generation : world → world
  dump_generation : world → world
  load_generation : String → world → world

/-- Calls that leave `main.cpp`, recorded in program order (ghost state). -/
inductive Call where
  | construct (width height : Int)
  | seed_life (random : Bool)
  | next_generation
  | dump_generation
  | load_generation (file : String)
  | render_cells
  | print_usage
deriving DecidableEq, Repr

/-- Abnormal ends of a run.  `index_error` is the bounds failure of the
specification's `GridStore`; no statement of `main.cpp` raises it. -/
inductive Fault where
  /-- subscript `[]` outside a buffer: undefined behaviour, no check is made -/
  | undefined_subscript
  /-- integer division by zero -/
  | division_by_zero
  /-- thrown by `std::stoi` when it finds no digits -/
  | invalid_argument
  /-- thrown by `std::stoi` when the value is outside `int` -/
  | out_of_range
  | index_error
  /-- a null `char*` streamed to `std::cout`: undefined behaviour -/
  | null_string
deriving DecidableEq, Repr

/-- The state of a `GameWindow` that control flow depends on, the pixel
buffer written by `render_cells`, and the ghost trace `calls`. -/
structure GameWindow where
  paint_cell : Bool
  w : world
  evolution : Bool
  scale : Int
  generations : Int
  pixels : List Nat
  calls : List Call
deriving DecidableEq, Repr

/-- Result of a member function that may call `exit` or go wrong. -/
inductive Outcome where
  /-- the function returned; the window is in state `g` -/
  | running (g : GameWindow)
  /-- the call `exit(status)` was made in state `g` -/
  | exited (status : Int) (g : GameWindow)
  | fault (f : Fault) (calls : List Call)
deriving DecidableEq, Repr

/-- Scancodes distinguished by `buttonDown`. -/
inductive Scancode where
  | ESCAPE | SPACE | E | C | S | D | L | LEFT
  | other (code : Nat)
deriving DecidableEq, Repr

/-- Event types distinguished by `handleEvents`. -/
inductive Event where
  | KEYUP (key : Scancode)
  | KEYDOWN (key : Scancode)
  | MOUSEMOTION
  | other
deriving DecidableEq, Repr

/-! Rendering -/

/-- Method `GameWindow::get_cell_color(c, cl)`, lines 84-93.  The conjunct
`&& cl.alive` of the first test is commented out in the source. -/
def get_cell_color (c cl : cell) : SDL_Color :=
  if c.alive then Color.GREEN
  else if c.alive && !cl.alive then Color.WHITE
  else if !c.alive && cl.alive then Color.BLUE
  else Color.BLACK

/-- The subscript `buf[x][y]`; `none` when it is outside the buffer. -/
def subscript (buf : List (List cell)) (x y : Nat) : Option cell :=
  match buf[x]? with
  | none => none
  | some col => col[y]?

/-- The pixel `0xFF000000 | r << 16 | g << 8 | b`. -/
def pixel (col : SDL_Color) : Nat :=
  0xFF000000 ||| (col.r <<< 16) ||| (col.g <<< 8) ||| col.b

/-- One pixel of `render_cells`: reads `w.cells[x][y]` and `w.last_gen[x][y]`. -/
def render_pixel (w : world) (x y : Nat) : Option Nat :=
  match subscript w.cells x y, subscript w.last_gen x y with
  | some c, some c_last => some (pixel (get_cell_color c c_last))
  | _, _ => none

/-- The inner loop `for x in irange(0, w.width)` at row `y`, for the columns `xs`. -/
def render_row (w : world) (y : Nat) : List Nat → Option (List Nat)
  | [] => some []
  | x :: xs =>
    match render_pixel w x y, render_row w y xs with
    | some p, some ps => some (p :: ps)
    | _, _ => none

/-- The outer loop `for y in irange(0, w.height)`, for the rows `ys`. -/
def render_rows (w : world) : List Nat → Option (List Nat)
  | [] => some []
  | y :: ys =>
    match render_row w y (List.range w.width.toNat), render_rows w ys with
    | some r, some rs => some (r ++ rs)
    | _, _ => none

/-- Method `GameWindow::render_cells`, lines 95-110: fills the pixel buffer row by
row; a subscript outside a buffer is undefined behaviour. -/
def render_cells (g : GameWindow) : Outcome :=
  match render_rows g.w (List.range g.w.height.toNat) with
  | some ps =>
    Outcome.running { g with pixels := ps, calls := g.calls ++ [Call.render_cells] }
  | none => Outcome.fault Fault.undefined_subscript g.calls

/-! Commands of the window -/

/-- Method `GameWindow::toggle_cell`, lines 112-116: `x = 1`, `y = 1` and
`w.cells[x][y].alive = !w.cells[x][y].alive`, with unchecked subscripts. -/
def toggle_cell (g : GameWindow) : Outcome :=
  let x := 1
  let y := 1
  match g.w.cells[x]? with
  | none => Outcome.fault Fault.undefined_subscript g.calls
  | some col =>
    match col[y]? with
    | none => Outcome.fault Fault.undefined_subscript g.calls
    | some c =>
      Outcome.running
        { g with w := { g.w with
            cells := g.w.cells.set x (col.set y { c with alive := !c.alive }) } }

/-- A call `w.f()` of a member function of `world`, recorded as `c`. -/
def call_world (f : world → world) (c : Call) (g : GameWindow) : GameWindow :=
  { g with w := f g.w, calls := g.calls ++ [c] }

/-- The assignment `w.generation = 0`. -/
def reset_generation (g : GameWindow) : GameWindow :=
  { g with w := { g.w with generation := 0 } }

/-- Method `GameWindow::update`, lines 118-143.  After `render_cells()` the function
only draws and keeps the frame statistics. -/
def update (ops : WorldOps) (g : GameWindow) : Outcome :=
  if g.generations > -1 ∧ g.generations ≤ g.w.generation then
    Outcome.exited g.generations g
  else
    let g1 :=
      if g.evolution then call_world ops.next_generation Call.next_generation g else g
    render_cells g1

/-- Method `GameWindow::buttonDown`, lines 145-180, on the scancode of the event. -/
def buttonDown (ops : WorldOps) (key : Scancode) (g : GameWindow) : Outcome :=
  match key with
  | Scancode.ESCAPE => Outcome.exited 0 g
  | Scancode.SPACE =>
    render_cells (reset_generation (call_world (ops.seed_life true) (Call.seed_life true) g))
  | Scancode.E => Outcome.running { g with evolution := !g.evolution }
  | Scancode.C =>
    render_cells (reset_generation
      (call_world (ops.seed_life false) (Call.seed_life false) { g with evolution := false }))
  | Scancode.S =>
    render_cells (call_world ops.next_generation Call.next_generation
      { g with evolution := false })
  | Scancode.D => Outcome.running (call_world ops.dump_generation Call.dump_generation g)
  | Scancode.L =>
    let file := "dump_" ++ g.w.last_dump_str ++ ".gol"
    Outcome.running (call_world (ops.load_generation file) (Call.load_generation file) g)
  | Scancode.LEFT =>
    match toggle_cell g with
    | Outcome.running g1 => Outcome.running { g1 with paint_cell := true }
    | o => o
  | Scancode.other _ => Outcome.running g

/-- Method `GameWindow::buttonUp`, lines 182-184: the body is a comment. -/
def buttonUp (g : GameWindow) : Outcome :=
  Outcome.running g

/-- One turn of the `switch (event.type)` of `handleEvents`. -/
def dispatch (ops : WorldOps) (e : Event) (g : GameWindow) : Outcome :=
  match e with
  | Event.KEYUP _ => buttonUp g
  | Event.KEYDOWN key => buttonDown ops key g
  | Event.MOUSEMOTION => Outcome.running g
  | Event.other => Outcome.running g

/-- Method `GameWindow::handleEvents`, lines 68-82, on the events that
`SDL_PollEvent` delivers during this call. -/
def handleEvents (ops : WorldOps) : List Event → GameWindow → Outcome
  | [], g => Outcome.running g
  | e :: es, g =>
    match dispatch ops e g with
    | Outcome.running g1 => handleEvents ops es g1
    | o => o

/-- How a run of `loop` stands after the polled input is used up. -/
inductive LoopResult where
  /-- the `while` test found `paint_cell` false and `loop` returned -/
  | returned (g : GameWindow)
  /-- the loop is still turning: the supplied input is used up -/
  | turning (g : GameWindow)
  | exited (status : Int) (g : GameWindow)
  | fault (f : Fault) (calls : List Call)
deriving DecidableEq, Repr

/-- Method `GameWindow::loop`, lines 61-66; `batches` holds, for each turn of the
loop, the events polled in that turn. -/
def loop (ops : WorldOps) : List (List Event) → GameWindow → LoopResult
  | [], g => if g.paint_cell then LoopResult.turning g else LoopResult.returned g
  | b :: bs, g =>
    if g.paint_cell then
      match handleEvents ops b g with
      | Outcome.running g1 =>
        match update ops g1 with
        | Outcome.running g2 => loop ops bs g2
        | Outcome.exited s g2 => LoopResult.exited s g2
        | Outcome.fault f cs => LoopResult.fault f cs
      | Outcome.exited s g1 => LoopResult.exited s g1
      | Outcome.fault f cs => LoopResult.fault f cs
    else LoopResult.returned g

/-! The entry point -/

/-- The value of a run of decimal digits. -/
def digits_value (ds : List Char) : Nat :=
  ds.foldl (fun acc c => 10 * acc + (c.toNat - 48)) 0

/-- The white space of `std::isspace` in the C locale: space and the control
characters 9 to 13. -/
def isspace (c : Char) : Bool :=
  c.toNat == 32 || (9 ≤ c.toNat && c.toNat ≤ 13)

/-- Library function `std::stoi(str)` in base 10: leading white space, an optional sign, then
the longest run of digits; throws `invalid_argument` without a digit and
`out_of_range` outside `int`. -/
def stoi (str : String) : Except Fault Int :=
  let cs := str.toList.dropWhile isspace
  let signed : Bool × List Char :=
    match cs with
    | '-' :: rest => (true, rest)
    | '+' :: rest => (false, rest)
    | _ => (false, cs)
  let ds := signed.2.takeWhile Char.isDigit
  if ds.isEmpty then Except.error Fault.invalid_argument
  else
    let n : Int := digits_value ds
    let v : Int := if signed.1 then -n else n
    if v < -2147483648 ∨ 2147483647 < v then Except.error Fault.out_of_range
    else Except.ok v

/-- The constructor `GameWindow(width, height, scale)`, lines 39-59, with the
member initialisers of lines 23-36.  Its only calls out of `main.cpp` that
touch the world are `world(width, height)` and `w.seed_life()`. -/
def GameWindow.GameWindow (ops : WorldOps) (width height scale : Int) :
    Except Fault GameWindow :=
  let w := ops.create width height
  if w.width = 0 then Except.error Fault.division_by_zero
  else
    let w1 := { w with ratio_w := Int.tdiv width w.width }
    if w1.height = 0 then Except.error Fault.division_by_zero
    else
      let w2 := { w1 with ratio_h := Int.tdiv height w1.height }
      Except.ok
        { paint_cell := true
          w := ops.seed_life true w2
          evolution := false
          scale := scale
          generations := -1
          pixels := []
          calls := [Call.construct width height, Call.seed_life true] }

/-- How `main` stands when it reaches `window.loop()`, or how it ended before. -/
inductive Startup where
  /-- the usage branch: `out` was printed and `main` returned `status` -/
  | usage (status : Int) (out : String) (calls : List Call)
  /-- an exception or undefined behaviour ended the start-up -/
  | fault (f : Fault) (calls : List Call)
  /-- the call `window.loop()` is made on `g` -/
  | window (g : GameWindow)
deriving DecidableEq, Repr

/-- The text that line 190 writes to `std::cout` when `argv[0]` is `prog`;
the line feed is that of `std::endl`. -/
def usage_text (prog : String) : String :=
  "usage: " ++ prog ++ " <width> <height> <scale> [<filename>] [<generations>]\n"

/-- Lines 196-203 of `main`: the optional snapshot and generation limit. -/
def main_options (ops : WorldOps) (argv : List String) (g : GameWindow) : Startup :=
  let argc := argv.length
  let g1 :=
    if argc ≥ 5 then
      call_world (ops.load_generation (argv.getD 4 ""))
        (Call.load_generation (argv.getD 4 "")) g
    else g
  if argc ≥ 6 then
    match stoi (argv.getD 5 "") with
    | Except.error f => Startup.fault f g1.calls
    | Except.ok limit => Startup.window { g1 with generations := limit, evolution := true }
  else Startup.window g1

/-- Lines 187-203 of `main`, up to the call `window.loop()`.  `argv[0]` is the
program name and `argc` is the length of `argv`; with `argc = 0` the pointer
`argv[0]` is null. -/
def main_startup (ops : WorldOps) (argv : List String) : Startup :=
  let argc := argv.length
  if argc < 4 then
    match argv[0]? with
    | some prog => Startup.usage (-1) (usage_text prog) [Call.print_usage]
    | none => Startup.fault Fault.null_string [Call.print_usage]
  else
    match stoi (argv.getD 1 ""), stoi (argv.getD 2 ""), stoi (argv.getD 3 "") with
    | Except.ok width, Except.ok height, Except.ok scale =>
      match GameWindow.GameWindow ops width height scale with
      | Except.ok g => main_options ops argv g
      | Except.error f => Startup.fault f [Call.construct width height]
    | Except.error f, _, _ => Startup.fault f []
    | _, Except.error f, _ => Startup.fault f []
    | _, _, Except.error f => Startup.fault f []

/-- How a run of `main` ends or stands. -/
inductive MainResult where
  /-- the function `main` returned `status` after writing `out` to `std::cout` -/
  | returned (status : Int) (out : String) (calls : List Call)
  | exited (status : Int) (g : GameWindow)
  | fault (f : Fault) (calls : List Call)
  /-- the call `window.loop()` is still turning -/
  | turning (g : GameWindow)
deriving DecidableEq, Repr

/-- The function `main`, lines 187-208. -/
def main (ops : WorldOps) (argv : List String) (batches : List (List Event)) : MainResult :=
  match main_startup ops argv with
  | Startup.usage status out calls => MainResult.returned status out calls
  | Startup.fault f calls => MainResult.fault f calls
  | Startup.window g =>
    match loop ops batches g with
    | LoopResult.returned g1 => MainResult.returned 0 "" g1.calls
    | LoopResult.turning g1 => MainResult.turning g1
    | LoopResult.exited s g1 => MainResult.exited s g1
    | LoopResult.fault f cs => MainResult.fault f cs

/-- The evolution flag that `buttonDown` leaves behind on `key`. -/
def evolution_after (key : Scancode) (evolution : Bool) : Bool :=
  match key with
  | Scancode.E => !evolution
  | Scancode.C => false
  | Scancode.S => false
  | _ => evolution

/-- The window that the constructor builds when neither division is by zero. -/
def constructed (ops : WorldOps) (width height scale : Int) : GameWindow :=
  { paint_cell := true
    w := ops.seed_life true
      { ops.create width height with
        ratio_w := Int.tdiv width (ops.create width height).width
        ratio_h := Int.tdiv height (ops.create width height).height }
    evolution := false
    scale := scale
    generations := -1
    pixels := []
    calls := [Call.construct width height, Call.seed_life true] }

/-! A world after the specification

`world.hpp` is absent; the following value of `WorldOps` follows sections 3 and 4 of the specification.  The theorems
below hold for every `WorldOps`; this one supplies concrete runs. -/

/-- Modelled from the spec: a stored snapshot, its header (width, height,
generation) and the cell states. -/
structure Snapshot where
  width : Int
  height : Int
  generation : Int
  cells : List (List cell)
deriving DecidableEq, Repr

/-- Modelled from the spec: a buffer of `width` columns of `height` cells
whose states are given by `f x y`. -/
def make_buffer (width height : Nat) (f : Nat → Nat → Bool) : List (List cell) :=
  (List.range width).map fun x => (List.range height).map fun y => ⟨f x y⟩

/-- Modelled from the spec: the constructor `world(width, height)` of the
absent `world.hpp`, two all-dead buffers of the given dimensions and
generation counter 0. -/
def spec_create (width height : Int) : world :=
  { width := width
    height := height
    cells := make_buffer width.toNat height.toNat fun _ _ => false
    last_gen := make_buffer width.toNat height.toNat fun _ _ => false
    generation := 0
    ratio_w := 0
    ratio_h := 0
    last_dump_str := "" }

/-- Modelled from the spec: the state of the cell at `(x, y)` under the
bounded boundary policy of section 4.2, cells outside the grid count as dead. -/
def alive_at (buf : List (List cell)) (x y : Int) : Bool :=
  if x < 0 ∨ y < 0 then false
  else
    match subscript buf x.toNat y.toNat with
    | some c => c.alive
    | none => false

/-- Modelled from the spec: the number of alive cells among the eight
neighbours of `(x, y)`. -/
def neighbour_count (buf : List (List cell)) (x y : Int) : Nat :=
  ([(-1, -1), (-1, 0), (-1, 1), (0, -1), (0, 1), (1, -1), (1, 0), (1, 1)].filter
    fun d : Int × Int => alive_at buf (x + d.1) (y + d.2)).length

/-- Modelled from the spec: the rule of section 4.2, step 3. -/
def conway_rule (alive : Bool) (n : Nat) : Bool :=
  if alive then n == 2 || n == 3 else n == 3

/-- Modelled from the spec: `next_generation` of the absent `world.hpp`, the
step of section 4.2; the old live buffer becomes the prior buffer and the
counter grows by one. -/
def spec_next_generation (w : world) : world :=
  { w with
    cells := make_buffer w.width.toNat w.height.toNat fun x y =>
      conway_rule (alive_at w.cells x y) (neighbour_count w.cells x y)
    last_gen := w.cells
    generation := w.generation + 1 }

/-- Modelled from the spec: `seed_life` of the absent `world.hpp`, the seeder
of section 4.3 with probability 3/10 drawn from a linear congruential
sequence started at `seed`; both buffers receive the seeded state and the
counter is reset. -/
def spec_seed_life (seed : Nat) (random : Bool) (w : world) : world :=
  let buf := make_buffer w.width.toNat w.height.toNat fun x y =>
    random && decide ((1103515245 * (seed + x * w.height.toNat + y) + 12345) % 2147483648 % 10 < 3)
  { w with cells := buf, last_gen := buf, generation := 0 }

/-- Modelled from the spec: `dump_generation` of the absent `world.hpp`; the
identifier of section 4.4 is derived from the generation number and
remembered.  The file written is outside the state of `world`. -/
def spec_dump_generation (w : world) : world :=
  { w with last_dump_str := toString w.generation }

/-- Modelled from the spec: `load_generation` of the absent `world.hpp`, the
load of section 4.4 from the stored snapshots `files`; a missing file, other
dimensions or a payload of another size leave the world as it is. -/
def spec_load_generation (files : String → Option Snapshot) (file : String) (w : world) :
    world :=
  match files file with
  | none => w
  | some s =>
    if s.width = w.width ∧ s.height = w.height ∧
        s.cells.length = w.width.toNat ∧
        s.cells.all (fun col => decide (col.length = w.height.toNat)) = true then
      { w with cells := s.cells, last_gen := s.cells, generation := s.generation }
    else w

/-- Modelled from the spec: the member functions of the absent `world.hpp`. -/
def specOps (seed : Nat) (files : String → Option Snapshot) : WorldOps :=
  { create := spec_create
    seed_life := spec_seed_life seed
    next_generation := spec_next_generation
    dump_generation := spec_dump_generation
    load_generation := spec_load_generation files }

/-- A store of snapshots that holds no file. -/
def no_files : String → Option Snapshot :=
  fun _ => none

/-- The state in which `main` calls `window.loop()` for the command line
`golGL <width> <height> 1`, over the world after the specification with
seed 7 and no stored snapshot. -/
def sample_window (width height : Int) : GameWindow :=
  { paint_cell := true
    w := spec_seed_life 7 true { spec_create width height with ratio_w := 1, ratio_h := 1 }
    evolution := false
    scale := 1
    generations := -1
    pixels := []
    calls := [Call.construct width height, Call.seed_life true] }

/-! Well-formed worlds -/

/-- A buffer has `width` columns of `height` cells each. -/
def buffer_has_dims (buf : List (List cell)) (width height : Nat) : Prop :=
  buf.length = width ∧ ∀ col ∈ buf, col.length = height

/-- Both buffers have the dimensions recorded in `width` and `height`
(section 3: "both buffers always share the engine's dimensions"). -/
def world.WellFormed (w : world) : Prop :=
  buffer_has_dims w.cells w.width.toNat w.height.toNat ∧
    buffer_has_dims w.last_gen w.width.toNat w.height.toNat

/-- The coordinate `(1, 1)` that `toggle_cell` addresses lies in the grid. -/
def world.toggle_in_range (w : world) : Prop :=
  1 < w.width ∧ 1 < w.height

/-- The member functions of `world` keep both buffers at the dimensions of
the world and never assign `width` or `height`. -/
structure WorldOps.Lawful (ops : WorldOps) : Prop where
  create_dims : ∀ width height,
    (ops.create width height).width = width ∧ (ops.create width height).height = height
  seed_life_wf : ∀ b w, w.WellFormed → (ops.seed_life b w).WellFormed
  seed_life_dims : ∀ b w,
    (ops.seed_life b w).width = w.width ∧ (ops.seed_life b w).height = w.height
  next_generation_wf : ∀ w, w.WellFormed → (ops.next_generation w).WellFormed
  next_generation_dims : ∀ w,
    (ops.next_generation w).width = w.width ∧ (ops.next_generation w).height = w.height
  dump_generation_wf : ∀ w, w.WellFormed → (ops.dump_generation w).WellFormed
  dump_generation_dims : ∀ w,
    (ops.dump_generation w).width = w.width ∧ (ops.dump_generation w).height = w.height
  load_generation_wf : ∀ file w, w.WellFormed → (ops.load_generation file w).WellFormed
  load_generation_dims : ∀ file w,
    (ops.load_generation file w).width = w.width ∧
      (ops.load_generation file w).height = w.height

/-! Rendering a well-formed world -/

theorem subscript_of_dims {buf : List (List cell)} {width height : Nat}
    (hd : buffer_has_dims buf width height) {x y : Nat} (hx : x < width) (hy : y < height) :
    ∃ c, subscript buf x y = some c := by
  obtain ⟨hlen, hcols⟩ := hd
  have hx2 : x < buf.length := by omega
  have hcol : buf[x].length = height := hcols _ (List.getElem_mem hx2)
  have hy2 : y < buf[x].length := by omega
  refine ⟨buf[x][y], ?_⟩
  unfold subscript
  rw [List.getElem?_eq_getElem hx2]
  exact List.getElem?_eq_getElem hy2

theorem render_pixel_of_wf {w : world} (hw : w.WellFormed) {x y : Nat}
    (hx : x < w.width.toNat) (hy : y < w.height.toNat) :
    ∃ p, render_pixel w x y = some p := by
  obtain ⟨c, hc⟩ := subscript_of_dims hw.1 hx hy
  obtain ⟨cl, hcl⟩ := subscript_of_dims hw.2 hx hy
  exact ⟨pixel (get_cell_color c cl), by simp [render_pixel, hc, hcl]⟩

theorem render_row_of_wf {w : world} (hw : w.WellFormed) {y : Nat} (hy : y < w.height.toNat)
    (xs : List Nat) (hxs : ∀ x ∈ xs, x < w.width.toNat) :
    ∃ ps, render_row w y xs = some ps := by
  induction xs with
  | nil => exact ⟨[], rfl⟩
  | cons x xs ih =>
    obtain ⟨p, hp⟩ := render_pixel_of_wf hw (hxs x (List.mem_cons_self x xs)) hy
    obtain ⟨ps, hps⟩ := ih (fun z hz => hxs z (List.mem_cons_of_mem x hz))
    exact ⟨p :: ps, by simp [render_row, hp, hps]⟩

theorem render_rows_of_wf {w : world} (hw : w.WellFormed)
    (ys : List Nat) (hys : ∀ y ∈ ys, y < w.height.toNat) :
    ∃ ps, render_rows w ys = some ps := by
  induction ys with
  | nil => exact ⟨[], rfl⟩
  | cons y ys ih =>
    obtain ⟨r, hr⟩ := render_row_of_wf hw (hys y (List.mem_cons_self y ys))
      (List.range w.width.toNat) (fun x hx => List.mem_range.mp hx)
    obtain ⟨rs, hrs⟩ := ih (fun z hz => hys z (List.mem_cons_of_mem y hz))
    exact ⟨r ++ rs, by simp [render_rows, hr, hrs]⟩

/-- On a well-formed world `render_cells` returns: it writes the pixel buffer,
records its call and changes nothing else. -/
theorem render_cells_of_wf (g : GameWindow) (hw : g.w.WellFormed) :
    ∃ ps, render_cells g =
      Outcome.running { g with pixels := ps, calls := g.calls ++ [Call.render_cells] } := by
  obtain ⟨ps, hps⟩ := render_rows_of_wf hw (List.range g.w.height.toNat)
    (fun y hy => List.mem_range.mp hy)
  exact ⟨ps, by simp [render_cells, hps]⟩

/-- In every case `render_cells` returns with only the pixel buffer and the
trace changed, or stops on an undefined subscript; it never calls `exit`. -/
theorem render_cells_cases (g : GameWindow) :
    (∃ ps, render_cells g =
      Outcome.running { g with pixels := ps, calls := g.calls ++ [Call.render_cells] }) ∨
    render_cells g = Outcome.fault Fault.undefined_subscript g.calls := by
  unfold render_cells
  cases render_rows g.w (List.range g.w.height.toNat) with
  | none => exact Or.inr rfl
  | some ps => exact Or.inl ⟨ps, rfl⟩

/-! The world after the specification is lawful -/

theorem make_buffer_dims (width height : Nat) (f : Nat → Nat → Bool) :
    buffer_has_dims (make_buffer width height f) width height := by
  constructor
  · simp [make_buffer]
  · intro col hcol
    simp only [make_buffer, List.mem_map] at hcol
    obtain ⟨x, _, rfl⟩ := hcol
    simp

theorem spec_seed_life_wf (seed : Nat) (b : Bool) (w : world) :
    (spec_seed_life seed b w).WellFormed :=
  ⟨make_buffer_dims _ _ _, make_buffer_dims _ _ _⟩

theorem spec_create_wf (width height : Int) : (spec_create width height).WellFormed :=
  ⟨make_buffer_dims _ _ _, make_buffer_dims _ _ _⟩

theorem spec_next_generation_wf (w : world) (hw : w.WellFormed) :
    (spec_next_generation w).WellFormed :=
  ⟨make_buffer_dims _ _ _, hw.1⟩

theorem spec_load_generation_wf (files : String → Option Snapshot) (file : String)
    (w : world) (hw : w.WellFormed) : (spec_load_generation files file w).WellFormed := by
  unfold spec_load_generation
  split
  · exact hw
  · split
    · rename_i s _ h
      obtain ⟨_, _, hlen, hall⟩ := h
      have hd : buffer_has_dims s.cells w.width.toNat w.height.toNat := by
        refine ⟨hlen, ?_⟩
        intro col hcol
        have := List.all_eq_true.mp hall col hcol
        simpa using this
      exact ⟨hd, hd⟩
    · exact hw

theorem spec_load_generation_dims (files : String → Option Snapshot) (file : String)
    (w : world) :
    (spec_load_generation files file w).width = w.width ∧
      (spec_load_generation files file w).height = w.height := by
  unfold spec_load_generation
  split
  · exact ⟨rfl, rfl⟩
  · split <;> exact ⟨rfl, rfl⟩

/-- The world modelled after the specification satisfies `WorldOps.Lawful`. -/
theorem specOps_lawful (seed : Nat) (files : String → Option Snapshot) :
    (specOps seed files).Lawful where
  create_dims := fun _ _ => ⟨rfl, rfl⟩
  seed_life_wf := fun b w _ => spec_seed_life_wf seed b w
  seed_life_dims := fun _ _ => ⟨rfl, rfl⟩
  next_generation_wf := spec_next_generation_wf
  next_generation_dims := fun _ => ⟨rfl, rfl⟩
  dump_generation_wf := fun _ hw => hw
  dump_generation_dims := fun _ => ⟨rfl, rfl⟩
  load_generation_wf := spec_load_generation_wf files
  load_generation_dims := spec_load_generation_dims files

/-! Generation limit (C1) -/

/-- After its first test `update` never calls `exit`. -/
theorem render_cells_ne_exited (g : GameWindow) (s : Int) (g1 : GameWindow) :
    render_cells g ≠ Outcome.exited s g1 := by
  rcases render_cells_cases g with ⟨ps, h⟩ | h <;> simp [h]

/-- C1, as stated, fails for a negative limit: started with the generation
limit argument `-5` on a 3 x 3 grid, `main` reaches `window.loop()` with
`generations = -5` and `w.generation = 0 >= -5`, and `update` does not exit
but returns after one `next_generation` call and one rendering. -/
theorem update_negative_limit_does_not_exit :
    ∃ g g1, main_startup (specOps 7 no_files) ["golGL", "3", "3", "1", "start.gol", "-5"]
        = Startup.window g ∧
      g.generations = -5 ∧ g.generations ≤ g.w.generation ∧
      update (specOps 7 no_files) g = Outcome.running g1 ∧
      g1.calls = g.calls ++ [Call.next_generation, Call.render_cells] :=
  ⟨_, _, rfl, by decide, by decide, rfl, by decide⟩

/-- C1 (amended): `update` exits on the generation limit exactly when the
limit is non-negative and the generation counter has reached it; the exit
status is the limit and the exit happens in the entry state, before any
`next_generation` call or rendering.  With a negative limit, and while the
counter is below the limit, `update` never exits. -/
theorem update_exits_iff (ops : WorldOps) (g : GameWindow) :
    (update ops g = Outcome.exited g.generations g ↔
      0 ≤ g.generations ∧ g.generations ≤ g.w.generation) ∧
    (∀ s g1, update ops g = Outcome.exited s g1 →
      s = g.generations ∧ g1 = g ∧ 0 ≤ g.generations ∧ g.generations ≤ g.w.generation) := by
  by_cases h : g.generations > -1 ∧ g.generations ≤ g.w.generation
  · have hu : update ops g = Outcome.exited g.generations g := by simp [update, h]
    have h0 : 0 ≤ g.generations := by omega
    refine ⟨⟨fun _ => ⟨h0, h.2⟩, fun _ => hu⟩, ?_⟩
    intro s g1 hs
    rw [hu] at hs
    injection hs with h1 h2
    exact ⟨h1.symm, h2.symm, h0, h.2⟩
  · have hu : update ops g = render_cells
        (if g.evolution then call_world ops.next_generation Call.next_generation g else g) := by
      simp [update, h]
    have hne : ∀ s g1, update ops g ≠ Outcome.exited s g1 := by
      intro s g1
      rw [hu]
      exact render_cells_ne_exited _ s g1
    refine ⟨⟨fun he => absurd he (hne _ _), fun hc => absurd ⟨by omega, hc.2⟩ h⟩, ?_⟩
    intro s g1 hs
    exact absurd hs (hne s g1)

/-! The usage branch (C2) -/

/-- The optional arguments never lead back to the usage branch. -/
theorem main_options_ne_usage (ops : WorldOps) (argv : List String) (g : GameWindow)
    (s : Int) (out : String) (cs : List Call) :
    main_options ops argv g ≠ Startup.usage s out cs := by
  unfold main_options
  simp only
  split
  · split <;> simp
  · simp

/-- With `argc >= 4` the start-up is not the usage branch. -/
theorem main_startup_ne_usage (ops : WorldOps) (argv : List String) (h : 4 ≤ argv.length)
    (s : Int) (out : String) (cs : List Call) :
    main_startup ops argv ≠ Startup.usage s out cs := by
  unfold main_startup
  simp only
  rw [if_neg (by omega)]
  split
  · split
    · exact main_options_ne_usage ops argv _ s out cs
    · simp
  · simp
  · simp
  · simp

/-- The usage branch is the only way to `Startup.usage`: status -1, the
printing as only call, and `argc < 4`. -/
theorem main_startup_usage (ops : WorldOps) (argv : List String)
    (s : Int) (out : String) (cs : List Call)
    (h : main_startup ops argv = Startup.usage s out cs) :
    s = -1 ∧ cs = [Call.print_usage] ∧ argv.length < 4 ∧
      ∃ prog, argv[0]? = some prog ∧ out = usage_text prog := by
  by_cases hlen : argv.length < 4
  · cases h0 : argv[0]? with
    | none => simp [main_startup, hlen, h0] at h
    | some prog =>
      simp only [main_startup, if_pos hlen, h0] at h
      injection h with h1 h2 h3
      exact ⟨h1.symm, h3.symm, hlen, prog, rfl, h2.symm⟩
  · exact absurd h (main_startup_ne_usage ops argv (by omega) s out cs)

/-- C2: for the program name `prog` followed by the arguments `args`, `main`
takes the usage branch exactly when fewer than 3 arguments are given
(`argc < 4`).  In that branch it writes the line
`usage: <prog> <width> <height> <scale> [<filename>] [<generations>]` to
`std::cout` and returns the nonzero status -1; the printing is the only call
made, so no window or world is constructed, no snapshot is loaded and the
loop is not entered, whatever input is pending. -/
theorem main_usage_iff (ops : WorldOps) (prog : String) (args : List String)
    (batches : List (List Event)) :
    ((∃ s out cs, main_startup ops (prog :: args) = Startup.usage s out cs) ↔
      args.length < 3) ∧
    (args.length < 3 →
      main_startup ops (prog :: args) = Startup.usage (-1)
        ("usage: " ++ prog ++ " <width> <height> <scale> [<filename>] [<generations>]\n")
        [Call.print_usage] ∧
      main ops (prog :: args) batches = MainResult.returned (-1)
        ("usage: " ++ prog ++ " <width> <height> <scale> [<filename>] [<generations>]\n")
        [Call.print_usage] ∧
      (-1 : Int) ≠ 0) := by
  have hu : args.length < 3 →
      main_startup ops (prog :: args) = Startup.usage (-1)
        ("usage: " ++ prog ++ " <width> <height> <scale> [<filename>] [<generations>]\n")
        [Call.print_usage] := by
    intro h
    have h4 : (prog :: args).length < 4 := by simp; omega
    simp only [main_startup, if_pos h4, List.getElem?_cons_zero, usage_text]
  refine ⟨⟨?_, fun h => ⟨_, _, _, hu h⟩⟩, fun h => ⟨hu h, ?_, by decide⟩⟩
  · rintro ⟨s, out, cs, hs⟩
    have := (main_startup_usage ops (prog :: args) s out cs hs).2.2.1
    simp at this
    omega
  · simp only [main, hu h]

/-- C2 at the command line `golGL 40 30`: two arguments, the usage line is
printed and the status is -1. -/
theorem main_usage_iff_witness :
    main (specOps 7 no_files) ["golGL", "40", "30"] [[Event.KEYDOWN Scancode.SPACE]]
      = MainResult.returned (-1)
        "usage: golGL <width> <height> <scale> [<filename>] [<generations>]\n"
        [Call.print_usage] :=
  ((main_usage_iff (specOps 7 no_files) "golGL" ["40", "30"]
    [[Event.KEYDOWN Scancode.SPACE]]).2 (by decide)).2.1

/-! The toggle command (C3, C4) -/

theorem set_of_getElem? {α : Type} (l : List α) (n : Nat) (a : α) (h : l[n]? = some a) :
    l.set n a = l := by
  induction l generalizing n with
  | nil => rfl
  | cons b l ih =>
    cases n with
    | zero => simp at h; simp [h]
    | succ n => simp at h; simp [List.set, ih n (by simpa using h)]

/-- What `toggle_cell` does when both subscripts are inside the live buffer. -/
theorem toggle_cell_of_subscript (g : GameWindow) (col : List cell) (c : cell)
    (hcol : g.w.cells[1]? = some col) (hc : col[1]? = some c) :
    toggle_cell g = Outcome.running
      { g with w := { g.w with
          cells := g.w.cells.set 1 (col.set 1 { c with alive := !c.alive }) } } := by
  simp [toggle_cell, hcol, hc]

/-- The subscript at `(1, 1)` after writing the cell `c1` there. -/
theorem subscript_set_self (buf : List (List cell)) (col : List cell) (c c1 : cell)
    (hcol : buf[1]? = some col) (hc : col[1]? = some c) :
    (buf.set 1 (col.set 1 c1))[1]? = some (col.set 1 c1) ∧
      (col.set 1 c1)[1]? = some c1 := by
  have h1 : 1 < buf.length := by
    obtain ⟨h, _⟩ := List.getElem?_eq_some.mp hcol
    exact h
  have h2 : 1 < col.length := by
    obtain ⟨h, _⟩ := List.getElem?_eq_some.mp hc
    exact h
  simp [List.getElem?_set, h1, h2]

/-- Writing at `(1, 1)` leaves every other subscript as it was. -/
theorem subscript_set_other (buf : List (List cell)) (col : List cell) (c1 : cell)
    (hcol : buf[1]? = some col) (x y : Nat) (hxy : (x, y) ≠ (1, 1)) :
    subscript (buf.set 1 (col.set 1 c1)) x y = subscript buf x y := by
  unfold subscript
  by_cases hx : x = 1
  · subst hx
    have hy : y ≠ 1 := fun h => hxy (by rw [h])
    have h1 : 1 < buf.length := by
      obtain ⟨h, _⟩ := List.getElem?_eq_some.mp hcol
      exact h
    have hs : (buf.set 1 (col.set 1 c1))[1]? = some (col.set 1 c1) := by
      simp [List.getElem?_set, h1]
    rw [hs, hcol]
    exact List.getElem?_set_ne (Ne.symm hy)
  · have hs : (buf.set 1 (col.set 1 c1))[x]? = buf[x]? := by
      exact List.getElem?_set_ne (Ne.symm hx)
    rw [hs]

/-- In a well-formed world the coordinate `(1, 1)` is inside the live buffer
exactly when `1 < width` and `1 < height`. -/
theorem subscript_one_one_iff (w : world) (hw : w.WellFormed) :
    (∃ c, subscript w.cells 1 1 = some c) ↔ w.toggle_in_range := by
  constructor
  · rintro ⟨c, hc⟩
    unfold subscript at hc
    cases hcol : w.cells[1]? with
    | none => simp [hcol] at hc
    | some col =>
      simp only [hcol] at hc
      obtain ⟨h1, hget⟩ := List.getElem?_eq_some.mp hcol
      obtain ⟨h2, _⟩ := List.getElem?_eq_some.mp hc
      have hmem : col ∈ w.cells := hget ▸ List.getElem_mem h1
      have hlen := hw.1.2 col hmem
      have hwid := hw.1.1
      unfold world.toggle_in_range
      omega
  · intro hr
    unfold world.toggle_in_range at hr
    exact subscript_of_dims hw.1 (by omega) (by omega)

/-- C3, as stated for every world state, fails on a 1 x 1 grid: the window
that `main` builds for `golGL 1 1 1` has no cell `(1, 1)`, and `toggle_cell`
does not return a state with one cell flipped. -/
theorem toggle_cell_one_by_one :
    main_startup (specOps 7 no_files) ["golGL", "1", "1", "1"]
        = Startup.window (sample_window 1 1) ∧
      (sample_window 1 1).w.WellFormed ∧
      ∀ g1, toggle_cell (sample_window 1 1) ≠ Outcome.running g1 := by
  refine ⟨rfl, spec_seed_life_wf _ _ _, ?_⟩
  intro g1 h
  have h2 : toggle_cell (sample_window 1 1)
      = Outcome.fault Fault.undefined_subscript (sample_window 1 1).calls := rfl
  rw [h2] at h
  cases h

/-- C3 (amended): in every well-formed world with `1 < width` and
`1 < height`, `toggle_cell` returns; the cell `(1, 1)` of the live buffer gets
the negated flag, every other subscript of the live buffer reads as before,
the prior buffer, the generation counter and the dimensions are unchanged,
and a second `toggle_cell` restores the original state.  The LEFT key does
the same to the world. -/
theorem toggle_cell_flips_one (ops : WorldOps) (g : GameWindow)
    (hw : g.w.WellFormed) (hr : g.w.toggle_in_range) :
    ∃ c g1, subscript g.w.cells 1 1 = some c ∧
      toggle_cell g = Outcome.running g1 ∧
      subscript g1.w.cells 1 1 = some ⟨!c.alive⟩ ∧
      (∀ x y, (x, y) ≠ (1, 1) → subscript g1.w.cells x y = subscript g.w.cells x y) ∧
      g1.w.last_gen = g.w.last_gen ∧ g1.w.generation = g.w.generation ∧
      g1.w.width = g.w.width ∧ g1.w.height = g.w.height ∧
      toggle_cell g1 = Outcome.running g ∧
      buttonDown ops Scancode.LEFT g = Outcome.running { g1 with paint_cell := true } := by
  obtain ⟨c, hc⟩ := (subscript_one_one_iff g.w hw).mpr hr
  have hc0 := hc
  unfold subscript at hc
  cases hcol : g.w.cells[1]? with
  | none => simp [hcol] at hc
  | some col =>
    simp only [hcol] at hc
    have ht := toggle_cell_of_subscript g col c hcol hc
    obtain ⟨hs1, hs2⟩ := subscript_set_self g.w.cells col c ⟨!c.alive⟩ hcol hc
    refine ⟨c, _, hc0, ht, ?_, ?_, rfl, rfl, rfl, rfl, ?_, ?_⟩
    · show subscript (g.w.cells.set 1 (col.set 1 ⟨!c.alive⟩)) 1 1 = _
      unfold subscript
      rw [hs1]
      exact hs2
    · intro x y hxy
      exact subscript_set_other g.w.cells col ⟨!c.alive⟩ hcol x y hxy
    · rw [toggle_cell_of_subscript _ (col.set 1 ⟨!c.alive⟩) ⟨!c.alive⟩ hs1 hs2]
      have e1 : (col.set 1 ⟨!c.alive⟩).set 1 ⟨!!c.alive⟩ = col := by
        rw [List.set_set]
        apply set_of_getElem?
        rw [hc]
        cases c
        simp
      have e2 : (g.w.cells.set 1 (col.set 1 ⟨!c.alive⟩)).set 1 col = g.w.cells := by
        rw [List.set_set]
        exact set_of_getElem? _ _ _ hcol
      simp only [e1, e2]
    · simp [buttonDown, ht]

/-- C3 on the 3 x 3 window built for `golGL 3 3 1`: the hypotheses hold and
the cell `(1, 1)` is flipped. -/
theorem toggle_cell_flips_one_witness :
    (sample_window 3 3).w.WellFormed ∧ (sample_window 3 3).w.toggle_in_range ∧
    ∃ c g1, subscript (sample_window 3 3).w.cells 1 1 = some c ∧
      toggle_cell (sample_window 3 3) = Outcome.running g1 ∧
      subscript g1.w.cells 1 1 = some ⟨!c.alive⟩ ∧
      toggle_cell g1 = Outcome.running (sample_window 3 3) := by
  have hw : (sample_window 3 3).w.WellFormed := spec_seed_life_wf _ _ _
  have hr : (sample_window 3 3).w.toggle_in_range := by
    unfold world.toggle_in_range
    decide
  obtain ⟨c, g1, h1, h2, h3, _, _, _, _, _, h4, _⟩ :=
    toggle_cell_flips_one (specOps 7 no_files) (sample_window 3 3) hw hr
  exact ⟨hw, hr, c, g1, h1, h2, h3, h4⟩

/-- C4, as stated, fails on a grid of width 3 and height 1: the coordinate
`(1, 1)` is out of range, and `toggle_cell` raises no index error; the
unchecked subscript is undefined behaviour. -/
theorem toggle_cell_no_index_error :
    main_startup (specOps 7 no_files) ["golGL", "3", "1", "1"]
        = Startup.window (sample_window 3 1) ∧
      ¬ (sample_window 3 1).w.toggle_in_range ∧
      toggle_cell (sample_window 3 1)
        = Outcome.fault Fault.undefined_subscript (sample_window 3 1).calls ∧
      ∀ cs, toggle_cell (sample_window 3 1) ≠ Outcome.fault Fault.index_error cs := by
  have h2 : toggle_cell (sample_window 3 1)
      = Outcome.fault Fault.undefined_subscript (sample_window 3 1).calls := rfl
  refine ⟨rfl, ?_, h2, ?_⟩
  · unfold world.toggle_in_range
    decide
  · intro cs h
    rw [h2] at h
    cases h

/-- C4 (amended): `toggle_cell` makes no bounds check.  It returns exactly
when the coordinate `(1, 1)` is inside the live buffer, which in a
well-formed world means `1 < width` and `1 < height`; otherwise the subscript
is undefined behaviour, and in no case is an index error raised. -/
theorem toggle_cell_unchecked (g : GameWindow) :
    ((∃ g1, toggle_cell g = Outcome.running g1) ↔ ∃ c, subscript g.w.cells 1 1 = some c) ∧
    (subscript g.w.cells 1 1 = none →
      toggle_cell g = Outcome.fault Fault.undefined_subscript g.calls) ∧
    (∀ cs, toggle_cell g ≠ Outcome.fault Fault.index_error cs) ∧
    (g.w.WellFormed → ((∃ g1, toggle_cell g = Outcome.running g1) ↔ g.w.toggle_in_range)) := by
  have key : ((∃ g1, toggle_cell g = Outcome.running g1) ↔
        ∃ c, subscript g.w.cells 1 1 = some c) ∧
      (subscript g.w.cells 1 1 = none →
        toggle_cell g = Outcome.fault Fault.undefined_subscript g.calls) ∧
      (∀ cs, toggle_cell g ≠ Outcome.fault Fault.index_error cs) := by
    cases hcol : g.w.cells[1]? with
    | none =>
      have hs : subscript g.w.cells 1 1 = none := by simp [subscript, hcol]
      have ht : toggle_cell g = Outcome.fault Fault.undefined_subscript g.calls := by
        simp [toggle_cell, hcol]
      simp [hs, ht]
    | some col =>
      cases hc : col[1]? with
      | none =>
        have hs : subscript g.w.cells 1 1 = none := by simp [subscript, hcol, hc]
        have ht : toggle_cell g = Outcome.fault Fault.undefined_subscript g.calls := by
                  simp [toggle_cell, hcol, hc]
        simp [hs, ht]
      | some c =>
        have hs : subscript g.w.cells 1 1 = some c := by simp [subscript, hcol, hc]
        simp [hs, toggle_cell_of_subscript g col c hcol hc]
  refine ⟨key.1, key.2.1, key.2.2, fun hw => ?_⟩
  rw [key.1]
  exact subscript_one_one_iff g.w hw

/-! Reseeding (C5) -/

/-- C5: the reseed commands of `buttonDown` return with the generation
counter at 0, whatever the counter and the evolution flag were: SPACE calls
`seed_life()` once and keeps the evolution flag, C calls `seed_life(false)`
once and leaves the flag off.  The reseeded world must be well-formed for
`render_cells` to read it. -/
theorem reseed_resets_generation (ops : WorldOps) (g : GameWindow)
    (hseed : ∀ b, (ops.seed_life b g.w).WellFormed) :
    (∃ g1, buttonDown ops Scancode.SPACE g = Outcome.running g1 ∧
      g1.w.generation = 0 ∧ g1.evolution = g.evolution ∧
      g1.w = { ops.seed_life true g.w with generation := 0 } ∧
      g1.calls = g.calls ++ [Call.seed_life true, Call.render_cells]) ∧
    (∃ g2, buttonDown ops Scancode.C g = Outcome.running g2 ∧
      g2.w.generation = 0 ∧ g2.evolution = false ∧
      g2.w = { ops.seed_life false g.w with generation := 0 } ∧
      g2.calls = g.calls ++ [Call.seed_life false, Call.render_cells]) := by
  constructor
  · obtain ⟨ps, hps⟩ := render_cells_of_wf
      (reset_generation (call_world (ops.seed_life true) (Call.seed_life true) g)) (hseed true)
    exact ⟨_, hps, by simp [reset_generation, call_world]⟩
  · obtain ⟨ps, hps⟩ := render_cells_of_wf
      (reset_generation (call_world (ops.seed_life false) (Call.seed_life false)
        { g with evolution := false })) (hseed false)
    exact ⟨_, hps, by simp [reset_generation, call_world]⟩

/-- C5 on a 3 x 3 window at generation 41 with auto-evolution on: both reseed
commands bring the counter to 0. -/
theorem reseed_resets_generation_witness :
    (∃ g1, buttonDown (specOps 7 no_files) Scancode.SPACE
        { sample_window 3 3 with
          w := { (sample_window 3 3).w with generation := 41 }, evolution := true }
        = Outcome.running g1 ∧ g1.w.generation = 0 ∧ g1.evolution = true) ∧
    (∃ g2, buttonDown (specOps 7 no_files) Scancode.C
        { sample_window 3 3 with
          w := { (sample_window 3 3).w with generation := 41 }, evolution := true }
        = Outcome.running g2 ∧ g2.w.generation = 0 ∧ g2.evolution = false) := by
  obtain ⟨⟨g1, h1, h2, h3, _⟩, ⟨g2, k1, k2, k3, _⟩⟩ :=
    reseed_resets_generation (specOps 7 no_files)
      { sample_window 3 3 with
        w := { (sample_window 3 3).w with generation := 41 }, evolution := true }
      (fun b => spec_seed_life_wf 7 b _)
  exact ⟨⟨g1, h1, h2, h3⟩, ⟨g2, k1, k2, k3⟩⟩

/-! Frame lemmas of the commands -/

/-- When `render_cells` returns, only the pixel buffer and the trace differ. -/
theorem render_cells_running (g g1 : GameWindow) (h : render_cells g = Outcome.running g1) :
    ∃ ps, g1 = { g with pixels := ps, calls := g.calls ++ [Call.render_cells] } := by
  rcases render_cells_cases g with ⟨ps, hps⟩ | hf
  · rw [hps] at h
    injection h with h
    exact ⟨ps, h.symm⟩
  · rw [hf] at h
    cases h

/-- When `toggle_cell` returns, only the live buffer differs. -/
theorem toggle_cell_running (g g1 : GameWindow) (h : toggle_cell g = Outcome.running g1) :
    ∃ cells, g1 = { g with w := { g.w with cells := cells } } := by
  unfold toggle_cell at h
  simp only at h
  split at h
  · cases h
  · split at h
    · cases h
    · injection h with h
      exact ⟨_, h.symm⟩

/-- What a returning `buttonDown` leaves unchanged or sets. -/
theorem buttonDown_running (ops : WorldOps) (key : Scancode) (g g1 : GameWindow)
    (h : buttonDown ops key g = Outcome.running g1) :
    g1.generations = g.generations ∧ (g.paint_cell = true → g1.paint_cell = true) ∧
      g1.evolution = evolution_after key g.evolution := by
  cases key with
  | ESCAPE => simp [buttonDown] at h
  | SPACE =>
    obtain ⟨ps, rfl⟩ := render_cells_running _ _ h
    exact ⟨rfl, fun hp => hp, rfl⟩
  | E =>
    simp only [buttonDown] at h
    injection h with h
    subst h
    exact ⟨rfl, fun hp => hp, rfl⟩
  | C =>
    obtain ⟨ps, rfl⟩ := render_cells_running _ _ h
    exact ⟨rfl, fun hp => hp, rfl⟩
  | S =>
    obtain ⟨ps, rfl⟩ := render_cells_running _ _ h
    exact ⟨rfl, fun hp => hp, rfl⟩
  | D =>
    simp only [buttonDown] at h
    injection h with h
    subst h
    exact ⟨rfl, fun hp => hp, rfl⟩
  | L =>
    simp only [buttonDown] at h
    injection h with h
    subst h
    exact ⟨rfl, fun hp => hp, rfl⟩
  | LEFT =>
    cases ht : toggle_cell g with
    | running g2 =>
      simp only [buttonDown, ht] at h
      injection h with h
      subst h
      obtain ⟨cells, rfl⟩ := toggle_cell_running _ _ ht
      exact ⟨rfl, fun _ => rfl, rfl⟩
    | exited s g2 => simp [buttonDown, ht] at h
    | fault f cs => simp [buttonDown, ht] at h
  | other code =>
    simp only [buttonDown] at h
    injection h with h
    subst h
    exact ⟨rfl, fun hp => hp, rfl⟩

/-- The two ways `update` can end without a fault. -/
theorem update_running (ops : WorldOps) (g g1 : GameWindow)
    (h : update ops g = Outcome.running g1) :
    g1.generations = g.generations ∧ g1.paint_cell = g.paint_cell ∧
      g1.evolution = g.evolution := by
  unfold update at h
  split at h
  · cases h
  · obtain ⟨ps, rfl⟩ := render_cells_running _ _ h
    by_cases he : g.evolution = true <;> simp [he, call_world]

/-- C10: when `update` does not exit on the generation limit, it calls
`next_generation` exactly once if the evolution flag is set and not at all
otherwise, and then renders; with the flag off the world is unchanged.
`update` never changes the flag.  Among the keys, E flips the flag, C and S
clear it and no other key changes it; S makes exactly one `next_generation`
call.  The worlds read by `render_cells` must be well-formed. -/
theorem update_gating (ops : WorldOps) (g : GameWindow)
    (hno : ¬ (g.generations > -1 ∧ g.generations ≤ g.w.generation))
    (hw : g.w.WellFormed) (hnext : (ops.next_generation g.w).WellFormed) :
    (g.evolution = true → ∃ ps, update ops g = Outcome.running
      { g with w := ops.next_generation g.w, pixels := ps,
               calls := g.calls ++ [Call.next_generation, Call.render_cells] }) ∧
    (g.evolution = false → ∃ ps, update ops g = Outcome.running
      { g with pixels := ps, calls := g.calls ++ [Call.render_cells] }) ∧
    (∀ g1, update ops g = Outcome.running g1 → g1.evolution = g.evolution) ∧
    buttonDown ops Scancode.E g = Outcome.running { g with evolution := !g.evolution } ∧
    (∀ g1, buttonDown ops Scancode.C g = Outcome.running g1 → g1.evolution = false) ∧
    (∃ ps, buttonDown ops Scancode.S g = Outcome.running
      { g with evolution := false, w := ops.next_generation g.w, pixels := ps,
               calls := g.calls ++ [Call.next_generation, Call.render_cells] }) ∧
    (∀ key g1, buttonDown ops key g = Outcome.running g1 →
      g1.evolution = evolution_after key g.evolution) := by
  refine ⟨?_, ?_, ?_, rfl, ?_, ?_, ?_⟩
  · intro he
    obtain ⟨ps, hps⟩ := render_cells_of_wf
      (call_world ops.next_generation Call.next_generation g) hnext
    refine ⟨ps, ?_⟩
    have hu : update ops g = render_cells
        (if g.evolution then call_world ops.next_generation Call.next_generation g else g) := by
      simp only [update, if_neg hno]
    rw [hu, if_pos he, hps]
    simp [call_world]
  · intro he
    obtain ⟨ps, hps⟩ := render_cells_of_wf g hw
    refine ⟨ps, ?_⟩
    have hu : update ops g = render_cells
        (if g.evolution then call_world ops.next_generation Call.next_generation g else g) := by
      simp only [update, if_neg hno]
    rw [hu, if_neg (by simp [he])]
    exact hps
  · intro g1 h
    exact (update_running ops g g1 h).2.2
  · intro g1 h
    exact (buttonDown_running ops Scancode.C g g1 h).2.2
  · obtain ⟨ps, hps⟩ := render_cells_of_wf
      (call_world ops.next_generation Call.next_generation { g with evolution := false }) hnext
    refine ⟨ps, ?_⟩
    simp only [buttonDown]
    rw [hps]
    simp [call_world]
  · intro key g1 h
    exact (buttonDown_running ops key g g1 h).2.2

/-- C10 on the 3 x 3 window of `golGL 3 3 1`, where auto-evolution is off and
no limit is set: `update` renders and leaves the world unchanged. -/
theorem update_gating_witness :
    ∃ ps, update (specOps 7 no_files) (sample_window 3 3) = Outcome.running
      { sample_window 3 3 with
        pixels := ps, calls := (sample_window 3 3).calls ++ [Call.render_cells] } :=
  (update_gating (specOps 7 no_files) (sample_window 3 3) (by decide)
    (spec_seed_life_wf _ _ _)
    (spec_next_generation_wf _ (spec_seed_life_wf _ _ _))).2.1 rfl

/-! Dimensions and the command line (C6, C7) -/

/-- The constructor completes exactly when the world it creates has nonzero
`width` and `height`; otherwise a ratio is a division by zero. -/
theorem constructor_cases (ops : WorldOps) (width height scale : Int) :
    ((ops.create width height).width ≠ 0 ∧ (ops.create width height).height ≠ 0 ∧
      GameWindow.GameWindow ops width height scale
        = Except.ok (constructed ops width height scale)) ∨
    (((ops.create width height).width = 0 ∨ (ops.create width height).height = 0) ∧
      GameWindow.GameWindow ops width height scale
        = Except.error Fault.division_by_zero) := by
  by_cases hw : (ops.create width height).width = 0
  · exact Or.inr ⟨Or.inl hw, by simp [GameWindow.GameWindow, hw]⟩
  · by_cases hh : (ops.create width height).height = 0
    · exact Or.inr ⟨Or.inr hh, by simp [GameWindow.GameWindow, hw, hh]⟩
    · exact Or.inl ⟨hw, hh, by simp [GameWindow.GameWindow, hw, hh, constructed]⟩

/-- The start-up once the three numeric arguments have been parsed. -/
theorem main_startup_parsed (ops : WorldOps) (argv : List String) (width height scale : Int)
    (h4 : 4 ≤ argv.length)
    (hwidth : stoi (argv.getD 1 "") = Except.ok width)
    (hheight : stoi (argv.getD 2 "") = Except.ok height)
    (hscale : stoi (argv.getD 3 "") = Except.ok scale) :
    main_startup ops argv =
      match GameWindow.GameWindow ops width height scale with
      | Except.ok g => main_options ops argv g
      | Except.error f => Startup.fault f [Call.construct width height] := by
  unfold main_startup
  simp only
  rw [if_neg (by omega), hwidth, hheight, hscale]

/-- The function `main_options` in its four cases. -/
theorem main_options_cases (ops : WorldOps) (argv : List String) (g : GameWindow) :
    (argv.length < 5 → main_options ops argv g = Startup.window g) ∧
    (argv.length = 5 → main_options ops argv g = Startup.window
      (call_world (ops.load_generation (argv.getD 4 ""))
        (Call.load_generation (argv.getD 4 "")) g)) ∧
    (6 ≤ argv.length → ∀ limit, stoi (argv.getD 5 "") = Except.ok limit →
      main_options ops argv g = Startup.window
        { call_world (ops.load_generation (argv.getD 4 ""))
            (Call.load_generation (argv.getD 4 "")) g with
          generations := limit, evolution := true }) ∧
    (6 ≤ argv.length → ∀ f, stoi (argv.getD 5 "") = Except.error f →
      main_options ops argv g = Startup.fault f
        (g.calls ++ [Call.load_generation (argv.getD 4 "")])) := by
  refine ⟨?_, ?_, ?_, ?_⟩
  · intro h
    have h5 : ¬ argv.length ≥ 5 := by omega
    have h6 : ¬ argv.length ≥ 6 := by omega
    simp [main_options, h5, h6]
  · intro h
    have h5 : argv.length ≥ 5 := by omega
    have h6 : ¬ argv.length ≥ 6 := by omega
    simp only [main_options, if_pos h5, if_neg h6]
  · intro h limit hl
    have h5 : argv.length ≥ 5 := by omega
    have h6 : argv.length ≥ 6 := h
    simp only [main_options, if_pos h5, if_pos h6, hl]
  · intro h f hl
    have h5 : argv.length ≥ 5 := by omega
    have h6 : argv.length ≥ 6 := h
    simp only [main_options, if_pos h5, if_pos h6, hl]
    rfl

/-- No statement of `buttonDown` assigns `w.width` or `w.height`. -/
theorem buttonDown_dims (ops : WorldOps) (hl : ops.Lawful) (key : Scancode)
    (g g1 : GameWindow) (h : buttonDown ops key g = Outcome.running g1) :
    g1.w.width = g.w.width ∧ g1.w.height = g.w.height := by
  cases key with
  | ESCAPE => simp [buttonDown] at h
  | SPACE =>
    obtain ⟨ps, rfl⟩ := render_cells_running _ _ h
    exact hl.seed_life_dims true g.w
  | E =>
    simp only [buttonDown] at h
    injection h with h
    subst h
    exact ⟨rfl, rfl⟩
  | C =>
    obtain ⟨ps, rfl⟩ := render_cells_running _ _ h
    exact hl.seed_life_dims false g.w
  | S =>
    obtain ⟨ps, rfl⟩ := render_cells_running _ _ h
    exact hl.next_generation_dims g.w
  | D =>
    simp only [buttonDown] at h
    injection h with h
    subst h
    exact hl.dump_generation_dims g.w
  | L =>
    simp only [buttonDown] at h
    injection h with h
    subst h
    exact hl.load_generation_dims _ g.w
  | LEFT =>
    cases ht : toggle_cell g with
    | running g2 =>
      simp only [buttonDown, ht] at h
      injection h with h
      subst h
      obtain ⟨cells, rfl⟩ := toggle_cell_running _ _ ht
      exact ⟨rfl, rfl⟩
    | exited s g2 => simp [buttonDown, ht] at h
    | fault f cs => simp [buttonDown, ht] at h
  | other code =>
    simp only [buttonDown] at h
    injection h with h
    subst h
    exact ⟨rfl, rfl⟩

/-- No statement of `update` assigns `w.width` or `w.height`. -/
theorem update_dims (ops : WorldOps) (hl : ops.Lawful) (g g1 : GameWindow)
    (h : update ops g = Outcome.running g1) :
    g1.w.width = g.w.width ∧ g1.w.height = g.w.height := by
  unfold update at h
  split at h
  · cases h
  · obtain ⟨ps, rfl⟩ := render_cells_running _ _ h
    by_cases he : g.evolution = true
    · simp only [he, if_true]
      exact hl.next_generation_dims g.w
    · simp [he]

/-- C6, as stated, fails: `main` does not check the dimensions.  For
`golGL 0 0 1` it calls the constructor with width 0 and height 0, and the
ratio computation is a division by zero. -/
theorem main_zero_dimensions :
    main_startup (specOps 7 no_files) ["golGL", "0", "0", "1"]
        = Startup.fault Fault.division_by_zero [Call.construct 0 0] ∧
      GameWindow.GameWindow (specOps 7 no_files) 0 0 1 = Except.error Fault.division_by_zero ∧
      ((specOps 7 no_files).create 0 0).width = 0 :=
  ⟨rfl, rfl, rfl⟩

/-- C6 (amended): `main` passes the parsed width and height to the constructor
unchecked.  If one of them is 0 the ratio computation is a division by zero
and no window is built; if both are nonzero, of either sign, the window is
built with exactly these dimensions.  Afterwards no statement of `buttonDown`
or `update` assigns `w.width` or `w.height`: they keep their values as long
as the member functions of `world` keep them. -/
theorem dimensions_unchecked (ops : WorldOps) (hl : ops.Lawful) (argv : List String)
    (width height scale : Int) (h4 : 4 ≤ argv.length)
    (hwidth : stoi (argv.getD 1 "") = Except.ok width)
    (hheight : stoi (argv.getD 2 "") = Except.ok height)
    (hscale : stoi (argv.getD 3 "") = Except.ok scale) :
    (width = 0 ∨ height = 0 →
      main_startup ops argv
        = Startup.fault Fault.division_by_zero [Call.construct width height]) ∧
    (width ≠ 0 → height ≠ 0 →
      ∃ g, GameWindow.GameWindow ops width height scale = Except.ok g ∧
        g.w.width = width ∧ g.w.height = height) ∧
    (∀ g, main_startup ops argv = Startup.window g →
      g.w.width = width ∧ g.w.height = height ∧ width ≠ 0 ∧ height ≠ 0) ∧
    (∀ key g g1, buttonDown ops key g = Outcome.running g1 →
      g1.w.width = g.w.width ∧ g1.w.height = g.w.height) ∧
    (∀ g g1, update ops g = Outcome.running g1 →
      g1.w.width = g.w.width ∧ g1.w.height = g.w.height) := by
  have hs := main_startup_parsed ops argv width height scale h4 hwidth hheight hscale
  obtain ⟨cw, ch⟩ := hl.create_dims width height
  have hcw : (constructed ops width height scale).w.width = width := by
    simp only [constructed]
    rw [(hl.seed_life_dims true _).1]
    exact cw
  have hch : (constructed ops width height scale).w.height = height := by
    simp only [constructed]
    rw [(hl.seed_life_dims true _).2]
    exact ch
  refine ⟨?_, ?_, ?_, fun key g g1 h => buttonDown_dims ops hl key g g1 h,
    fun g g1 h => update_dims ops hl g g1 h⟩
  · intro h0
    rcases constructor_cases ops width height scale with ⟨a, b, _⟩ | ⟨_, c⟩
    · rw [cw] at a
      rw [ch] at b
      rcases h0 with h0 | h0
      · exact absurd h0 a
      · exact absurd h0 b
    · rw [hs, c]
  · intro hw0 hh0
    rcases constructor_cases ops width height scale with ⟨_, _, c⟩ | ⟨a, _⟩
    · exact ⟨_, c, hcw, hch⟩
    · rw [cw, ch] at a
      rcases a with a | a
      · exact absurd a hw0
      · exact absurd a hh0
  · intro g hg
    rw [hs] at hg
    rcases constructor_cases ops width height scale with ⟨a, b, c⟩ | ⟨_, c⟩
    · rw [cw] at a
      rw [ch] at b
      rw [c] at hg
      simp only at hg
      have hdim : g.w.width = (constructed ops width height scale).w.width ∧
          g.w.height = (constructed ops width height scale).w.height := by
        obtain ⟨o1, o2, o3, o4⟩ := main_options_cases ops argv (constructed ops width height scale)
        by_cases h5 : argv.length < 5
        · rw [o1 h5] at hg
          injection hg with hg
          subst hg
          exact ⟨rfl, rfl⟩
        · by_cases h6 : argv.length = 5
          · rw [o2 h6] at hg
            injection hg with hg
            subst hg
            exact hl.load_generation_dims _ _
          · have h7 : 6 ≤ argv.length := by omega
            cases hp : stoi (argv.getD 5 "") with
            | error f =>
              rw [o4 h7 f hp] at hg
              cases hg
            | ok limit =>
              rw [o3 h7 limit hp] at hg
              injection hg with hg
              subst hg
              exact hl.load_generation_dims _ _
      exact ⟨hdim.1.trans hcw, hdim.2.trans hch, a, b⟩
    · rw [c] at hg
      cases hg

/-- C6 on `golGL 3 3 1` over the world after the specification: the window is
built with width 3 and height 3. -/
theorem dimensions_unchecked_witness :
    (sample_window 3 3).w.width = 3 ∧ (sample_window 3 3).w.height = 3 :=
  let h := (dimensions_unchecked (specOps 7 no_files) (specOps_lawful 7 no_files)
    ["golGL", "3", "3", "1"] 3 3 1 (by decide) rfl rfl rfl).2.2.1 (sample_window 3 3) rfl
  ⟨h.1, h.2.1⟩

/-- C7, as stated for every argument vector, fails when a numeric argument is
not a number: for `golGL x 3 1 start.gol` four arguments are given, and
`std::stoi` throws before a window is built or a snapshot is loaded. -/
theorem main_unparsed_argument :
    main_startup (specOps 7 no_files) ["golGL", "x", "3", "1", "start.gol"]
        = Startup.fault Fault.invalid_argument [] ∧
      5 ≤ ["golGL", "x", "3", "1", "start.gol"].length :=
  ⟨rfl, by decide⟩

/-- C7 (amended): for every argument vector with at least 3 arguments whose
arguments 1-3, and argument 5 when present, are integers in `int` range and
whose world has nonzero dimensions, `main` reaches `window.loop()`: the window
is built from arguments 1-3 and seeded; a snapshot is loaded from argument 4,
after the seeding, exactly when at least 4 arguments are given; the limit is
argument 5 and auto-evolution is on exactly when at least 5 arguments are
given; otherwise there is no limit (-1) and auto-evolution is off. -/
theorem main_honours_command_line (ops : WorldOps) (argv : List String)
    (width height scale limit : Int) (h4 : 4 ≤ argv.length)
    (hwidth : stoi (argv.getD 1 "") = Except.ok width)
    (hheight : stoi (argv.getD 2 "") = Except.ok height)
    (hscale : stoi (argv.getD 3 "") = Except.ok scale)
    (hdims : (ops.create width height).width ≠ 0 ∧ (ops.create width height).height ≠ 0)
    (hlimit : 6 ≤ argv.length → stoi (argv.getD 5 "") = Except.ok limit) :
    ∃ g0 g, GameWindow.GameWindow ops width height scale = Except.ok g0 ∧
      main_startup ops argv = Startup.window g ∧
      g0.calls = [Call.construct width height, Call.seed_life true] ∧
      g0.generations = -1 ∧ g0.evolution = false ∧
      g.scale = scale ∧
      ((5 ≤ argv.length ∧ g.w = ops.load_generation (argv.getD 4 "") g0.w ∧
          g.calls = g0.calls ++ [Call.load_generation (argv.getD 4 "")]) ∨
        (argv.length = 4 ∧ g.w = g0.w ∧ g.calls = g0.calls)) ∧
      ((6 ≤ argv.length ∧ g.generations = limit ∧ g.evolution = true) ∨
        (argv.length < 6 ∧ g.generations = -1 ∧ g.evolution = false)) := by
  have hs := main_startup_parsed ops argv width height scale h4 hwidth hheight hscale
  rcases constructor_cases ops width height scale with ⟨_, _, c⟩ | ⟨a, _⟩
  · rw [c] at hs
    simp only at hs
    obtain ⟨o1, o2, o3, _⟩ := main_options_cases ops argv (constructed ops width height scale)
    by_cases h5 : argv.length < 5
    · refine ⟨_, _, c, hs.trans (o1 h5), rfl, rfl, rfl, rfl, Or.inr ⟨by omega, rfl, rfl⟩,
        Or.inr ⟨by omega, rfl, rfl⟩⟩
    · by_cases h6 : argv.length = 5
      · refine ⟨_, _, c, hs.trans (o2 h6), rfl, rfl, rfl, rfl, Or.inl ⟨by omega, rfl, rfl⟩,
          Or.inr ⟨by omega, rfl, rfl⟩⟩
      · have h7 : 6 ≤ argv.length := by omega
        refine ⟨_, _, c, hs.trans (o3 h7 limit (hlimit h7)), rfl, rfl, rfl, rfl,
          Or.inl ⟨by omega, rfl, rfl⟩, Or.inl ⟨h7, rfl, rfl⟩⟩
  · rcases a with a | a
    · exact absurd a hdims.1
    · exact absurd a hdims.2

/-- C7 on `golGL 3 3 2 start.gol 10`: the loop starts with limit 10 and
auto-evolution on, after the snapshot was loaded. -/
theorem main_honours_command_line_witness :
    ∃ g, main_startup (specOps 7 no_files) ["golGL", "3", "3", "2", "start.gol", "10"]
        = Startup.window g ∧
      g.generations = 10 ∧ g.evolution = true ∧ g.scale = 2 ∧
      g.calls = [Call.construct 3 3, Call.seed_life true, Call.load_generation "start.gol"] := by
  obtain ⟨g0, g, _, h2, h3, _, _, h6, h7, h8⟩ :=
    main_honours_command_line (specOps 7 no_files)
      ["golGL", "3", "3", "2", "start.gol", "10"] 3 3 2 10 (by decide) rfl rfl rfl
      ⟨by decide, by decide⟩ (fun _ => rfl)
  rcases h7 with ⟨_, _, c⟩ | ⟨c, _⟩
  · rcases h8 with ⟨_, d1, d2⟩ | ⟨d, _⟩
    · refine ⟨g, h2, d1, d2, h6, ?_⟩
      rw [c, h3]
      rfl
    · exact absurd d (by decide)
  · exact absurd c (by decide)

/-! Runs without undefined behaviour (C9) -/

/-- C8: on a newly-born cell (alive now, dead before) `get_cell_color` returns
GREEN, the colour it also returns for a stable-alive cell, and not WHITE; the
branch returning WHITE is never reached, so the four classes get only three
colours. -/
theorem get_cell_color_newly_born :
    get_cell_color ⟨true⟩ ⟨false⟩ = Color.GREEN ∧
    get_cell_color ⟨true⟩ ⟨false⟩ = get_cell_color ⟨true⟩ ⟨true⟩ ∧
    get_cell_color ⟨false⟩ ⟨true⟩ = Color.BLUE ∧
    get_cell_color ⟨false⟩ ⟨false⟩ = Color.BLACK ∧
    Color.GREEN ≠ Color.WHITE ∧
    ∀ c cl, get_cell_color c cl ≠ Color.WHITE := by
  refine ⟨rfl, rfl, rfl, rfl, by decide, ?_⟩
  rintro ⟨a⟩ ⟨b⟩
  cases a <;> cases b <;> decide

end GolGL
